import Mathlib

/-
  Verification development for the MoonCat Discord bot
  (sales / listing / naming announcement pipeline).

  The definitions below are shallow embeddings of the JavaScript source in
  src/bottybot.mjs and src/unnamed/part_001.  External I/O (receipt lookup,
  marketplace API, conversion-rate fetch, webhook delivery) is passed in as
  explicit oracle arguments; JS numbers on the money path are modelled as
  rationals; nullable JS values are modelled with Option, and JS truthiness
  of strings/numbers (empty string and 0 are falsy) is modelled explicitly.
-/

namespace MCBot

/-- JS truthiness for a nullable string: undefined/null and the empty string
are falsy, every other string is truthy. -/
def truthyOptStr : Option String → Bool
  | none => false
  | some s => if s = "" then false else true

/-- JS truthiness for a nullable number: undefined/null and 0 are falsy. -/
def truthyRate : Option ℚ → Bool
  | none => false
  | some r => if r = 0 then false else true

/-- ASCII lowercasing of one character, as applied by toLowerCase to the
hex addresses this program compares. -/
def jsCharToLower (c : Char) : Char :=
  if 65 ≤ c.toNat ∧ c.toNat ≤ 90 then Char.ofNat (c.toNat + 32) else c

/-- Model of String.prototype.toLowerCase on the ASCII addresses this
program compares. -/
def jsToLower (s : String) : String := String.mk (s.data.map jsCharToLower)

/-- Model of String.prototype.trim: strip leading and trailing whitespace
characters. -/
def jsTrim (s : String) : String :=
  String.mk (((s.data.dropWhile Char.isWhitespace).reverse.dropWhile
    Char.isWhitespace).reverse)

/-- MOONCATS_CONTRACT_ADDRESS constant from both bot files. -/
def MOONCATS_CONTRACT_ADDRESS : String := "0xc3f733ca98e0dad0386979eb96fb1722a1a05e69"

/-- OLD_WRAPPER_CONTRACT_ADDRESS constant from both bot files. -/
def OLD_WRAPPER_CONTRACT_ADDRESS : String := "0x7c40c393dc0f283f318791d746d894ddd3693572"

/-! ## Transfer queue promotion (src/bottybot.mjs lines 567-588,
src/unnamed/part_001 lines 738-768) -/

/-- A transaction receipt as returned by web3.eth.getTransactionReceipt:
only the status field is inspected by the bot. -/
structure Receipt where
  status : Bool
  deriving DecidableEq, Repr

/-- The record pushed onto the transfer queue by the Transfer event handlers
(src/bottybot.mjs lines 606-611). -/
structure TransferRecord where
  tokenId : String
  transactionHash : String
  sellerAddress : String
  contractAddress : String
  deriving DecidableEq, Repr

/-- The promotion test in processTransferQueue: the fetched receipt must be
non-null and its status truthy.  fetchTransactionReceipt converts lookup
errors to null, so the oracle returns an Option. -/
def receiptConfirmed (getReceipt : String → Option Receipt) (transactionHash : String) : Bool :=
  match getReceipt transactionHash with
  | some receipt => receipt.status
  | none => false

/-- Functional embedding of the processTransferQueue drain loop
(src/bottybot.mjs lines 567-588): each dequeued transfer is pushed onto the
sales queue exactly when its receipt lookup confirms success, otherwise it
is dropped.  The result is the final sales queue. -/
def processTransferQueue (getReceipt : String → Option Receipt) :
    List TransferRecord → List TransferRecord → List TransferRecord
  | [], salesQueue => salesQueue
  | transfer :: rest, salesQueue =>
    if receiptConfirmed getReceipt transfer.transactionHash then
      processTransferQueue getReceipt rest (salesQueue ++ [transfer])
    else
      processTransferQueue getReceipt rest salesQueue

/-! ## Drain-loop re-entrancy machines (src/bottybot.mjs lines 602-617 and
src/unnamed/part_001 lines 736-768, 782-794)

Single-threaded cooperative semantics: each event below is one synchronous
JS turn.  A push turn appends to the transfer queue and, when the queue
length is exactly 1, calls processTransferQueue, whose synchronous prefix
shifts the head of the queue before parking at its first await.  A resume
turn wakes one parked loop iteration: the loop finishes its current item
and either shifts the next queued item or exits.

The bottybot.mjs variant has no guard flag; the part_001 variant guards
processTransferQueue with the isProcessingTransfers boolean. -/

/-- One scheduler event: a Transfer event handler push, or the wake-up of
the parked drain-loop number i. -/
inductive QueueEvent where
  | push (t : TransferRecord)
  | resume (i : ℕ)
  deriving DecidableEq, Repr

/-- State of the unguarded (bottybot.mjs) transfer processor: the queue,
the multiset of active drain loops (each holding the item it is currently
awaiting on), and the items whose processing has completed. -/
structure BotState where
  queue : List TransferRecord
  loops : List TransferRecord
  processed : List TransferRecord
  deriving DecidableEq, Repr

/-- bottybot.mjs push handler: push, then "if (transferQueue.length === 1)
processTransferQueue()"; the freshly spawned loop synchronously shifts the
single queued item and parks. -/
def pushUnguarded (s : BotState) (t : TransferRecord) : BotState :=
  let q := s.queue ++ [t]
  if q.length = 1 then
    { queue := [], loops := s.loops ++ [t], processed := s.processed }
  else
    { s with queue := q }

/-- bottybot.mjs drain-loop wake-up: loop i finishes its item, then
re-checks the queue: it shifts the next item if any, else exits. -/
def resumeUnguarded (s : BotState) (i : ℕ) : BotState :=
  match s.loops[i]? with
  | none => s
  | some t =>
    match s.queue with
    | [] =>
      { queue := [], loops := s.loops.eraseIdx i, processed := s.processed ++ [t] }
    | u :: rest =>
      { queue := rest, loops := s.loops.set i u, processed := s.processed ++ [t] }

/-- One scheduler turn of the unguarded machine. -/
def stepUnguarded (s : BotState) : QueueEvent → BotState
  | .push t => pushUnguarded s t
  | .resume i => resumeUnguarded s i

/-- Run a sequence of scheduler turns on the unguarded machine. -/
def runUnguarded (events : List QueueEvent) (s : BotState) : BotState :=
  events.foldl stepUnguarded s

/-- Idle initial state of the unguarded machine. -/
def initUnguarded : BotState := { queue := [], loops := [], processed := [] }

/-- State of the guarded (part_001) transfer processor: as BotState plus
the isProcessingTransfers flag. -/
structure GuardedBotState where
  queue : List TransferRecord
  loops : List TransferRecord
  isProcessingTransfers : Bool
  processed : List TransferRecord
  deriving DecidableEq, Repr

/-- part_001 push handler: push, then on queue length 1 call
processTransferQueue, which returns immediately when
isProcessingTransfers is set, else sets the flag, shifts the single queued
item and parks. -/
def pushGuarded (s : GuardedBotState) (t : TransferRecord) : GuardedBotState :=
  let q := s.queue ++ [t]
  if q.length = 1 then
    if s.isProcessingTransfers then
      { s with queue := q }
    else
      { queue := [], loops := s.loops ++ [t], isProcessingTransfers := true,
        processed := s.processed }
  else
    { s with queue := q }

/-- part_001 drain-loop wake-up: loop i finishes its item, then re-checks
the queue: it shifts the next item if any, else clears the flag and
exits. -/
def resumeGuarded (s : GuardedBotState) (i : ℕ) : GuardedBotState :=
  match s.loops[i]? with
  | none => s
  | some t =>
    match s.queue with
    | [] =>
      { queue := [], loops := s.loops.eraseIdx i, isProcessingTransfers := false,
        processed := s.processed ++ [t] }
    | u :: rest =>
      { queue := rest, loops := s.loops.set i u,
        isProcessingTransfers := s.isProcessingTransfers,
        processed := s.processed ++ [t] }

/-- One scheduler turn of the guarded machine. -/
def stepGuarded (s : GuardedBotState) : QueueEvent → GuardedBotState
  | .push t => pushGuarded s t
  | .resume i => resumeGuarded s i

/-- Run a sequence of scheduler turns on the guarded machine. -/
def runGuarded (events : List QueueEvent) (s : GuardedBotState) : GuardedBotState :=
  events.foldl stepGuarded s

/-- Idle initial state of the guarded machine. -/
def initGuarded : GuardedBotState :=
  { queue := [], loops := [], isProcessingTransfers := false, processed := [] }

/-- Coupling invariant of the guarded machine: the flag is set exactly when
one drain loop is active. -/
def GuardInv (s : GuardedBotState) : Prop :=
  (s.isProcessingTransfers = true ∧ s.loops.length = 1) ∨
  (s.isProcessingTransfers = false ∧ s.loops = [])

theorem guardInv_push (s : GuardedBotState) (t : TransferRecord) (h : GuardInv s) :
    GuardInv (pushGuarded s t) := by
  rcases h with ⟨hf, hl⟩ | ⟨hf, hl⟩
  · by_cases h1 : (s.queue ++ [t]).length = 1
    · simp [pushGuarded, GuardInv, h1, hf, hl]
    · simp [pushGuarded, GuardInv, h1, hf, hl]
  · by_cases h1 : (s.queue ++ [t]).length = 1
    · simp [pushGuarded, GuardInv, h1, hf, hl]
    · have h2 : ¬ s.queue = [] := by
        intro h
        exact h1 (by simp [h])
      simp [pushGuarded, GuardInv, h1, hf, hl, h2]

theorem guardInv_resume (s : GuardedBotState) (i : ℕ) (h : GuardInv s) :
    GuardInv (resumeGuarded s i) := by
  rcases h with ⟨hf, hl⟩ | ⟨hf, hl⟩
  · obtain ⟨x, hx⟩ := List.length_eq_one.mp hl
    cases i with
    | zero =>
      cases hq : s.queue with
      | nil => simp [resumeGuarded, GuardInv, hx, hq]
      | cons u rest => simp [resumeGuarded, GuardInv, hx, hq, hf]
    | succ n => simp [resumeGuarded, GuardInv, hx, hf]
  · simp [resumeGuarded, GuardInv, hl, hf]

theorem guardInv_step (s : GuardedBotState) (e : QueueEvent) (h : GuardInv s) :
    GuardInv (stepGuarded s e) := by
  cases e with
  | push t => exact guardInv_push s t h
  | resume i => exact guardInv_resume s i h

theorem guardInv_run (events : List QueueEvent) (s : GuardedBotState) (h : GuardInv s) :
    GuardInv (runGuarded events s) := by
  induction events generalizing s with
  | nil => exact h
  | cons e rest ih => exact ih (stepGuarded s e) (guardInv_step s e h)

/-! ## Sale matcher (src/bottybot.mjs lines 463-525, src/unnamed/part_001
lines 616-678) -/

/-- The payment object of an OpenSea sale event: symbol, quantity (a raw
integer amount string, coerced to a number by the JS division) and the
token's declared decimals. -/
structure Payment where
  symbol : String
  quantity : ℕ
  decimals : ℕ
  deriving DecidableEq, Repr

/-- The nft sub-object of an OpenSea sale event; only identifier is read. -/
structure OSNft where
  identifier : String
  deriving DecidableEq, Repr

/-- An OpenSea asset_events entry as read by fetchSaleDataFromOpenSea.
Every field the code tests for presence is an Option. -/
structure OSEvent where
  nft : Option OSNft
  seller : Option String
  buyer : Option String
  payment : Option Payment
  transaction : Option String
  protocol_address : Option String
  deriving DecidableEq, Repr

/-- A parsed OpenSea API response body; asset_events is none when the
payload is structurally invalid (missing the field), which makes the JS
array spread throw. -/
structure OSPayload where
  asset_events : Option (List OSEvent)
  deriving DecidableEq, Repr

/-- The sale record returned by fetchSaleDataFromOpenSea on a match. -/
structure SaleData where
  tokenId : String
  ethPrice : ℚ
  transactionUrl : String
  payment : Payment
  fromAddress : String
  toAddress : String
  protocolAddress : Option String
  saleSellerAddress : String
  deriving DecidableEq, Repr

/-- The find predicate of fetchSaleDataFromOpenSea: the event has an nft
object whose identifier equals the token id, a truthy seller equal
(case-insensitively) to the seller address, and a truthy buyer. -/
def eventMatches (tokenId sellerAddress : String) (e : OSEvent) : Bool :=
  (match e.nft with
   | none => false
   | some n => if n.identifier = tokenId then true else false) &&
  truthyOptStr e.seller &&
  (match e.seller with
   | none => false
   | some s => if jsToLower s = jsToLower sellerAddress then true else false) &&
  truthyOptStr e.buyer

/-- Embedding of fetchSaleDataFromOpenSea (src/bottybot.mjs lines 463-525).
The two marketplace API calls are passed in as Except values (error for an
HTTP failure or a rejected fetch/json promise).  Any failure path of the
JS code, including the TypeError thrown by spreading a missing
asset_events array, is caught by its try/catch and becomes null, which is
modelled by returning none from a total function. -/
def fetchSaleDataFromOpenSea (moonCatResp oldWrapperResp : Except String OSPayload)
    (tokenId sellerAddress : String) : Option SaleData :=
  match moonCatResp, oldWrapperResp with
  | .ok moonCatData, .ok oldWrapperData =>
    match moonCatData.asset_events, oldWrapperData.asset_events with
    | some mcEvents, some owEvents =>
      if (mcEvents ++ owEvents).isEmpty then none
      else
        match (mcEvents ++ owEvents).find? (eventMatches tokenId sellerAddress) with
        | none => none
        | some saleEvent =>
          if truthyOptStr saleEvent.seller = false ∨ truthyOptStr saleEvent.buyer = false ∨
              saleEvent.payment = none ∨ truthyOptStr saleEvent.transaction = false then
            none
          else
            match saleEvent.payment, saleEvent.seller, saleEvent.buyer,
                saleEvent.transaction with
            | some paymentToken, some sellerStr, some buyerStr, some txStr =>
              some
                { tokenId := tokenId,
                  ethPrice := (paymentToken.quantity : ℚ) / 10 ^ paymentToken.decimals,
                  transactionUrl := "https://etherscan.io/tx/" ++ txStr,
                  payment := paymentToken,
                  fromAddress := sellerStr,
                  toAddress := buyerStr,
                  protocolAddress := saleEvent.protocol_address,
                  saleSellerAddress := sellerAddress }
            | _, _, _, _ => none
    | _, _ => none
  | _, _ => none

/-- The metadata object returned by getMoonCatNameOrId on success. -/
structure MoonCatData where
  name : Option String
  catId : String
  deriving DecidableEq, Repr

/-- The resolved display name of announceMoonCatSale: details.name when
truthy, else details.catId. -/
def moonCatNameOrId (d : MoonCatData) : String :=
  match d.name with
  | some s => if s = "" then d.catId else s
  | none => d.catId

/-- A character of the bracketed class [^a-zA-Z0-9] in the
isBlacklistedName regular expression of part_001 line 15. -/
def isSkipChar (c : Char) : Bool := !c.isAlphanum

/-- Run the continuation after consuming any number of [^a-zA-Z0-9]
characters; trying the continuation at every skip length gives the
regex's backtracking. -/
def skipNonAlnumThen (k : List Char → Bool) : List Char → Bool
  | [] => k []
  | c :: rest => k (c :: rest) || (isSkipChar c && skipNonAlnumThen k rest)

/-- The final character class (?:a|4|@) of the regex (case-insensitive). -/
def expectA : List Char → Bool
  | c :: _ => c == 'a' || c == 'A' || c == '4' || c == '@'
  | [] => false

/-- The second n of the regex, then skip class, then expectA. -/
def expectN2 : List Char → Bool
  | c :: rest => (c == 'n' || c == 'N') && skipNonAlnumThen expectA rest
  | [] => false

/-- The first n of the regex, then skip class, then expectN2. -/
def expectN1 : List Char → Bool
  | c :: rest => (c == 'n' || c == 'N') && skipNonAlnumThen expectN2 rest
  | [] => false

/-- The class (?:o|0) of the regex, then skip class, then expectN1. -/
def expectO : List Char → Bool
  | c :: rest => (c == 'o' || c == 'O' || c == '0') && skipNonAlnumThen expectN1 rest
  | [] => false

/-- The isBlacklistedName test of part_001 line 15: search anywhere in the
string for b [^a-zA-Z0-9]* (o|0) [^a-zA-Z0-9]* n [^a-zA-Z0-9]* n
[^a-zA-Z0-9]* (a|4|@), case-insensitively on the letters. -/
def isBlacklistedName : List Char → Bool
  | [] => false
  | c :: rest =>
    ((c == 'b' || c == 'B') && skipNonAlnumThen expectO rest) ||
      isBlacklistedName rest

/-- needle-is-a-prefix-of-haystack over character lists. -/
def listStartsWith : List Char → List Char → Bool
  | [], _ => true
  | _ :: _, [] => false
  | n :: ns, h :: hs => n == h && listStartsWith ns hs

/-- String.prototype.includes over character lists. -/
def containsSub (needle : List Char) : List Char → Bool
  | [] => listStartsWith needle []
  | c :: rest => listStartsWith needle (c :: rest) || containsSub needle rest

/-- isBlockedFullName (src/unnamed/part_001 lines 16-24): the regex
match on the name itself, or its lowercasing containing bonna or
discord. -/
def isBlockedFullName (s : String) : Bool :=
  isBlacklistedName s.data ||
    containsSub ("bonna".data) ((jsToLower s).data) ||
    containsSub ("discord".data) ((jsToLower s).data)

/-- The early-return chain of announceMoonCatSale in the bottybot.mjs
variant (src/bottybot.mjs lines 389-425, which has no name filter): an
outbound webhook message is sent exactly when the conversion rate is
truthy, the metadata lookup returned data, and the image lookup returned
a truthy URL; each oracle is passed in as an Option. -/
def announceMoonCatSaleEmits (rate : Option ℚ) (moonCatData : Option MoonCatData)
    (imageUrl : Option String) : Bool :=
  truthyRate rate && moonCatData.isSome && truthyOptStr imageUrl

/-- The early-return chain of announceMoonCatSale in the part_001 variant
(src/unnamed/part_001 lines 500-557): as the bottybot.mjs chain, with the
additional isBlockedFullName gate of lines 519-522 on the resolved
display name. -/
def announceMoonCatSaleEmitsP1 (rate : Option ℚ) (moonCatData : Option MoonCatData)
    (imageUrl : Option String) : Bool :=
  truthyRate rate &&
    (match moonCatData with
     | none => false
     | some d => !isBlockedFullName (moonCatNameOrId d)) &&
    truthyOptStr imageUrl

/-- One iteration of processSalesQueue (src/bottybot.mjs lines 527-565) for
a MoonCats-contract candidate: the Announcer is invoked only when the sale
matcher returned non-null, and it emits subject to the enrichment chain. -/
def processSaleCandidateEmits (saleData : Option SaleData) (rate : Option ℚ)
    (moonCatData : Option MoonCatData) (imageUrl : Option String) : Bool :=
  match saleData with
  | none => false
  | some _ => announceMoonCatSaleEmits rate moonCatData imageUrl

/-- One iteration of the part_001 processSalesQueue (src/unnamed/part_001
lines 682-734) for a MoonCats-contract candidate, invoking the part_001
announcer with its name-filter gate. -/
def processSaleCandidateEmitsP1 (saleData : Option SaleData) (rate : Option ℚ)
    (moonCatData : Option MoonCatData) (imageUrl : Option String) : Bool :=
  match saleData with
  | none => false
  | some _ => announceMoonCatSaleEmitsP1 rate moonCatData imageUrl

/-! ## Marketplace classification (src/bottybot.mjs lines 410-416 and
961-964, src/unnamed/part_001 lines 1178-1181) -/

/-- Marketplace label and deep link of the sale announcer
(src/bottybot.mjs lines 410-416): defaults to OpenSea, switched to Blur
when the protocol address is absent, empty, or trims to the empty
string. -/
def saleMarketplace (protocolAddress : Option String) (tokenId : String) : String × String :=
  match protocolAddress with
  | none =>
    ("Blur", "https://blur.io/asset/" ++ MOONCATS_CONTRACT_ADDRESS ++ "/" ++ tokenId)
  | some s =>
    if s = "" ∨ jsTrim s = "" then
      ("Blur", "https://blur.io/asset/" ++ MOONCATS_CONTRACT_ADDRESS ++ "/" ++ tokenId)
    else
      ("OpenSea", "https://opensea.io/assets/ethereum/" ++ MOONCATS_CONTRACT_ADDRESS ++
        "/" ++ tokenId)

/-- Marketplace label and deep link of announceMoonCatListing
(src/bottybot.mjs lines 961-964, src/unnamed/part_001 lines 1178-1181):
plain JS truthiness on protocol_address, with no trim. -/
def listingMarketplace (protocol_address : Option String) (tokenId : String)
    (opensea_url : String) : String × String :=
  let marketplaceName :=
    match protocol_address with
    | none => "Blur"
    | some s => if s = "" then "Blur" else "OpenSea"
  if marketplaceName = "Blur" then
    (marketplaceName, "https://blur.io/asset/" ++ MOONCATS_CONTRACT_ADDRESS ++ "/" ++ tokenId)
  else
    (marketplaceName, opensea_url)

/-! ## Conversion-rate cache (src/bottybot.mjs lines 214-243,
src/unnamed/part_001 lines 278-307) -/

/-- The process-wide conversion-rate cache: cachedConversionRate and
lastFetchedTime module variables. -/
structure RateCache where
  cachedConversionRate : Option ℚ
  lastFetchedTime : ℕ
  deriving DecidableEq, Repr

/-- Initial cache: cachedConversionRate = null, lastFetchedTime = 0. -/
def initRateCache : RateCache := { cachedConversionRate := none, lastFetchedTime := 0 }

/-- Result of one getEthToUsdConversionRate call: the returned value, the
updated cache, and whether an upstream fetch was performed. -/
structure RateCallResult where
  value : Option ℚ
  cache : RateCache
  didFetch : Bool
  deriving DecidableEq, Repr

/-- Embedding of getEthToUsdConversionRate (src/bottybot.mjs lines
214-243): serve the cached value when it is truthy and less than one hour
old, else fetch (the oracle fetchResult is none on an HTTP error or thrown
exception, in which case null is returned and the cache is untouched). -/
def getEthToUsdConversionRate (fetchResult : Option ℚ) (currentTime : ℕ)
    (c : RateCache) : RateCallResult :=
  if truthyRate c.cachedConversionRate = true ∧
      currentTime - c.lastFetchedTime < 3600000 then
    { value := c.cachedConversionRate, cache := c, didFetch := false }
  else
    match fetchResult with
    | some price =>
      { value := some price,
        cache := { cachedConversionRate := some price, lastFetchedTime := currentTime },
        didFetch := true }
    | none => { value := none, cache := c, didFetch := true }

/-- C1: two-stage promotion invariant.  If every record already in the
sales queue passed receipt confirmation, then after processTransferQueue
drains the transfer queue, every record in the resulting sales queue passed
receipt confirmation: transfers with a missing receipt or a false status
are dropped and never enter the sales queue. -/
theorem salesQueueOnlyConfirmed (getReceipt : String → Option Receipt)
    (queue initialSales : List TransferRecord)
    (h0 : ∀ t ∈ initialSales, receiptConfirmed getReceipt t.transactionHash = true) :
    ∀ t ∈ processTransferQueue getReceipt queue initialSales,
      receiptConfirmed getReceipt t.transactionHash = true := by
  induction queue generalizing initialSales with
  | nil =>
    intro t ht
    exact h0 t ht
  | cons transfer rest ih =>
    intro t ht
    by_cases hc : receiptConfirmed getReceipt transfer.transactionHash = true
    · simp only [processTransferQueue, if_pos hc] at ht
      refine ih (initialSales ++ [transfer]) ?_ t ht
      intro u hu
      rcases List.mem_append.mp hu with h | h
      · exact h0 u h
      · rw [List.mem_singleton.mp h]
        exact hc
    · simp only [processTransferQueue, if_neg hc] at ht
      exact ih initialSales h0 t ht

/-- Receipt oracle for the C1 witness: hash 0xaaa succeeded, hash 0xbbb
reverted, anything else has no receipt. -/
def gReceiptW : String → Option Receipt :=
  fun h =>
    if h = "0xaaa" then some { status := true }
    else if h = "0xbbb" then some { status := false }
    else none

/-- A transfer whose receipt confirms success. -/
def trConfirmedW : TransferRecord :=
  { tokenId := "101", transactionHash := "0xaaa", sellerAddress := "0xs1",
    contractAddress := MOONCATS_CONTRACT_ADDRESS }

/-- A transfer whose receipt reports a reverted transaction. -/
def trFailedW : TransferRecord :=
  { tokenId := "102", transactionHash := "0xbbb", sellerAddress := "0xs2",
    contractAddress := MOONCATS_CONTRACT_ADDRESS }

/-- Witness for C1: applying salesQueueOnlyConfirmed to the concrete queue
holding one confirmed and one reverted transfer, the confirmed transfer is
in the resulting sales queue and indeed passed receipt confirmation. -/
theorem salesQueueOnlyConfirmed_witness :
    receiptConfirmed gReceiptW trConfirmedW.transactionHash = true :=
  salesQueueOnlyConfirmed gReceiptW [trConfirmedW, trFailedW] []
    (by intro t ht; simp at ht) trConfirmedW (by decide)

/-- First transfer pushed in the C2 counterexample run. -/
def trPushA : TransferRecord :=
  { tokenId := "1", transactionHash := "0xh1", sellerAddress := "0xsa",
    contractAddress := MOONCATS_CONTRACT_ADDRESS }

/-- Second transfer pushed in the C2 counterexample run. -/
def trPushB : TransferRecord :=
  { tokenId := "2", transactionHash := "0xh2", sellerAddress := "0xsb",
    contractAddress := MOONCATS_CONTRACT_ADDRESS }

/-- C2 counterexample: in the bottybot.mjs processor (no guard flag, drain
triggered by transferQueue.length === 1), pushing two items in rapid
succession to an idle queue starts two concurrent drain loops: the first
push spawns a loop that shifts its item and parks, leaving the queue
empty, so the second push sees length 1 and spawns a second loop. -/
theorem transferDrainDoubleLoopUnguarded :
    (runUnguarded [QueueEvent.push trPushA, QueueEvent.push trPushB]
        initUnguarded).loops.length = 2 := by
  decide

/-- C2 (amended): in the part_001 processor guarded by
isProcessingTransfers, at most one drain loop is active after any sequence
of scheduler turns from the idle state; and pushing two items in rapid
succession to an idle queue results in one loop processing both items (the
second push is observed by the existing loop, not by a new one) before the
machine returns to idle. -/
theorem transferDrainSingleLoopGuarded :
    (∀ events : List QueueEvent, (runGuarded events initGuarded).loops.length ≤ 1) ∧
    (∀ a b : TransferRecord,
      runGuarded [QueueEvent.push a, QueueEvent.push b, QueueEvent.resume 0,
          QueueEvent.resume 0] initGuarded =
        { queue := [], loops := [], isProcessingTransfers := false, processed := [a, b] }) := by
  constructor
  · intro events
    have h := guardInv_run events initGuarded (Or.inr ⟨rfl, rfl⟩)
    rcases h with ⟨hf, hl⟩ | ⟨hf, hl⟩
    · omega
    · simp [hl]
  · intro a b
    rfl

/-- C7: the sale matcher is total on failure.  For every input, a failed
API call (either collection) or a structurally invalid payload (missing
asset_events) makes fetchSaleDataFromOpenSea return none; it never
propagates the failure, as witnessed by it being a total function into
Option. -/
theorem saleMatcherTotalOnFailure :
    ∀ (tokenId sellerAddress errMsg : String) (other : Except String OSPayload),
      fetchSaleDataFromOpenSea (Except.error errMsg) other tokenId sellerAddress = none ∧
      fetchSaleDataFromOpenSea other (Except.error errMsg) tokenId sellerAddress = none ∧
      (∀ ow : OSPayload,
        fetchSaleDataFromOpenSea (Except.ok { asset_events := none }) (Except.ok ow)
          tokenId sellerAddress = none) ∧
      (∀ mc : OSPayload,
        fetchSaleDataFromOpenSea (Except.ok mc) (Except.ok { asset_events := none })
          tokenId sellerAddress = none) := by
  intro tokenId sellerAddress errMsg other
  refine ⟨?_, ?_, ?_, ?_⟩
  · cases other <;> rfl
  · cases other <;> rfl
  · intro ow
    obtain ⟨evs⟩ := ow
    cases evs <;> rfl
  · intro mc
    obtain ⟨evs⟩ := mc
    cases evs <;> rfl

/-- C4: for every sale the matcher returns, the computed native price is
the payment quantity divided by ten to the payment's declared decimals --
the decimals field of the matched event, not a fixed 18. -/
theorem ethPriceUsesDeclaredDecimals (moonCatResp oldWrapperResp : Except String OSPayload)
    (tokenId sellerAddress : String) (sd : SaleData)
    (h : fetchSaleDataFromOpenSea moonCatResp oldWrapperResp tokenId sellerAddress = some sd) :
    sd.ethPrice = (sd.payment.quantity : ℚ) / 10 ^ sd.payment.decimals := by
  unfold fetchSaleDataFromOpenSea at h
  repeat' split at h
  all_goals try exact Option.noConfusion h
  injection h with h2
  rw [← h2]

/-- An 18-decimal WETH payment of 1.5 tokens in raw units. -/
def paymentW18 : Payment :=
  { symbol := "WETH", quantity := 1500000000000000000, decimals := 18 }

/-- A 6-decimal USDC payment of 2.5 tokens in raw units. -/
def paymentW6 : Payment :=
  { symbol := "USDC", quantity := 2500000, decimals := 6 }

/-- A complete OpenSea sale event for token 42 paying with paymentW18. -/
def saleEventW18 : OSEvent :=
  { nft := some { identifier := "42" }, seller := some "0xAbCSeller",
    buyer := some "0xbuyer1", payment := some paymentW18, transaction := some "0xtx18",
    protocol_address := some "0x0000000000000068b3465833fb72a70ecdf485e0" }

/-- A complete OpenSea sale event for token 7 paying with paymentW6. -/
def saleEventW6 : OSEvent :=
  { nft := some { identifier := "7" }, seller := some "0xSellerSix",
    buyer := some "0xbuyer2", payment := some paymentW6, transaction := some "0xtx6",
    protocol_address := none }

/-- A valid payload holding the two concrete sale events. -/
def payloadW : OSPayload := { asset_events := some [saleEventW18, saleEventW6] }

/-- A valid payload with no events. -/
def payloadEmptyW : OSPayload := { asset_events := some [] }

/-- The sale record the matcher produces for saleEventW18. -/
def saleDataW18 : SaleData :=
  { tokenId := "42", ethPrice := (1500000000000000000 : ℚ) / 10 ^ 18,
    transactionUrl := "https://etherscan.io/tx/0xtx18", payment := paymentW18,
    fromAddress := "0xAbCSeller", toAddress := "0xbuyer1",
    protocolAddress := some "0x0000000000000068b3465833fb72a70ecdf485e0",
    saleSellerAddress := "0xabcseller" }

/-- The sale record the matcher produces for saleEventW6. -/
def saleDataW6 : SaleData :=
  { tokenId := "7", ethPrice := (2500000 : ℚ) / 10 ^ 6,
    transactionUrl := "https://etherscan.io/tx/0xtx6", payment := paymentW6,
    fromAddress := "0xSellerSix", toAddress := "0xbuyer2", protocolAddress := none,
    saleSellerAddress := "0xsellersix" }

/-- Witness for C4: on the concrete quantity 1500000000000000000 with 18
decimals the matched price is exactly 1.5, and on quantity 2500000 with 6
decimals it is exactly 2.5, both via ethPriceUsesDeclaredDecimals. -/
theorem ethPriceUsesDeclaredDecimals_witness :
    fetchSaleDataFromOpenSea (Except.ok payloadW) (Except.ok payloadEmptyW) "42"
        "0xabcseller" = some saleDataW18 ∧
    saleDataW18.ethPrice = 3 / 2 ∧
    fetchSaleDataFromOpenSea (Except.ok payloadW) (Except.ok payloadEmptyW) "7"
        "0xsellersix" = some saleDataW6 ∧
    saleDataW6.ethPrice = 5 / 2 := by
  refine ⟨rfl, ?_, rfl, ?_⟩
  · rw [ethPriceUsesDeclaredDecimals (Except.ok payloadW) (Except.ok payloadEmptyW) "42"
      "0xabcseller" saleDataW18 rfl]
    norm_num [saleDataW18, paymentW18]
  · rw [ethPriceUsesDeclaredDecimals (Except.ok payloadW) (Except.ok payloadEmptyW) "7"
      "0xsellersix" saleDataW6 rfl]
    norm_num [saleDataW6, paymentW6]

/-- C3 counterexample: a drained candidate for which the sale matcher
returns a complete match (non-null buyer, seller and payment) but for
which no announcement is emitted, because the conversion-rate lookup
failed; so announcement emission is not equivalent to the matcher
returning a match. -/
theorem announcementMissingOnRateFailure :
    (fetchSaleDataFromOpenSea (Except.ok payloadW) (Except.ok payloadEmptyW) "42"
        "0xabcseller").isSome = true ∧
    processSaleCandidateEmits
        (fetchSaleDataFromOpenSea (Except.ok payloadW) (Except.ok payloadEmptyW) "42"
          "0xabcseller")
        none (some { name := some "Buttons", catId := "0x42" })
        (some "https://img.example/42") = false := by
  decide

/-- C3 (amended): for every drained sale candidate, an announcement is
emitted if and only if the sale matcher returns a match (which by
construction has a non-null buyer, seller and payment) AND the enrichment
chain succeeds: the conversion rate is truthy, the metadata lookup
returned data, and the image lookup returned a truthy URL -- and, in the
part_001 variant only, the resolved display name additionally passes the
isBlockedFullName name filter.  When the matcher returns none the
candidate is dropped with no announcement in both variants. -/
theorem announcementIffMatchAndEnrichment (moonCatResp oldWrapperResp : Except String OSPayload)
    (tokenId sellerAddress : String) (rate : Option ℚ) (moonCatData : Option MoonCatData)
    (imageUrl : Option String) :
    (processSaleCandidateEmits
        (fetchSaleDataFromOpenSea moonCatResp oldWrapperResp tokenId sellerAddress)
        rate moonCatData imageUrl = true ↔
      ((fetchSaleDataFromOpenSea moonCatResp oldWrapperResp tokenId sellerAddress).isSome =
          true ∧
        truthyRate rate = true ∧ moonCatData.isSome = true ∧
        truthyOptStr imageUrl = true)) ∧
    (processSaleCandidateEmitsP1
        (fetchSaleDataFromOpenSea moonCatResp oldWrapperResp tokenId sellerAddress)
        rate moonCatData imageUrl = true ↔
      ((fetchSaleDataFromOpenSea moonCatResp oldWrapperResp tokenId sellerAddress).isSome =
          true ∧
        truthyRate rate = true ∧
        (∃ d, moonCatData = some d ∧ isBlockedFullName (moonCatNameOrId d) = false) ∧
        truthyOptStr imageUrl = true)) := by
  constructor
  · cases hf : fetchSaleDataFromOpenSea moonCatResp oldWrapperResp tokenId sellerAddress <;>
      simp [processSaleCandidateEmits, announceMoonCatSaleEmits, Bool.and_eq_true, and_assoc]
  · cases hf : fetchSaleDataFromOpenSea moonCatResp oldWrapperResp tokenId sellerAddress <;>
      cases moonCatData <;>
      simp [processSaleCandidateEmitsP1, announceMoonCatSaleEmitsP1, Bool.and_eq_true,
        and_assoc]

/-- C5 counterexample: for a whitespace-only protocol address (which trims
to the empty string) the listing announcer classifies the marketplace as
OpenSea while the sale announcer classifies it as Blur: the claim's
"trims to empty implies Blur in every announcing code path" fails. -/
theorem marketplaceClassificationWhitespaceDiverges :
    (listingMarketplace (some " ") "42" "https://opensea.io/x").1 = "OpenSea" ∧
    ¬ (listingMarketplace (some " ") "42" "https://opensea.io/x").1 = "Blur" ∧
    (saleMarketplace (some " ") "42").1 = "Blur" ∧
    jsTrim " " = "" := by
  decide

/-- C5 (amended): an absent or empty protocol address resolves to Blur in
both announcing code paths, and a protocol address with non-whitespace
content resolves to OpenSea in both; but a non-empty whitespace-only
protocol address resolves to Blur in the sale path (which trims) and to
OpenSea in the listing path (which tests only JS truthiness). -/
theorem marketplaceClassificationAmended (p : Option String) (tokenId openseaUrl : String) :
    ((p = none ∨ p = some "") →
      (saleMarketplace p tokenId).1 = "Blur" ∧
        (listingMarketplace p tokenId openseaUrl).1 = "Blur") ∧
    (∀ s, p = some s → ¬ jsTrim s = "" →
      (saleMarketplace p tokenId).1 = "OpenSea" ∧
        (listingMarketplace p tokenId openseaUrl).1 = "OpenSea") ∧
    (∀ s, p = some s → ¬ s = "" → jsTrim s = "" →
      (saleMarketplace p tokenId).1 = "Blur" ∧
        (listingMarketplace p tokenId openseaUrl).1 = "OpenSea") := by
  refine ⟨?_, ?_, ?_⟩
  · rintro (rfl | rfl)
    · exact ⟨rfl, rfl⟩
    · exact ⟨rfl, rfl⟩
  · rintro s rfl hs
    have hne : ¬ s = "" := by
      intro h
      subst h
      exact hs (by decide)
    constructor
    · simp [saleMarketplace, hs, hne]
    · simp [listingMarketplace, hne]
  · rintro s rfl hne hs
    constructor
    · simp [saleMarketplace, hs]
    · simp [listingMarketplace, hne]

/-- Witness for C5 (amended): concrete instances of all three cases, each
obtained by applying marketplaceClassificationAmended. -/
theorem marketplaceClassificationAmended_witness :
    (saleMarketplace none "42").1 = "Blur" ∧
    (listingMarketplace none "42" "u").1 = "Blur" ∧
    (saleMarketplace (some "0x1234") "42").1 = "OpenSea" ∧
    (listingMarketplace (some "0x1234") "42" "u").1 = "OpenSea" ∧
    (saleMarketplace (some " ") "42").1 = "Blur" ∧
    (listingMarketplace (some " ") "42" "u").1 = "OpenSea" := by
  have h1 := (marketplaceClassificationAmended none "42" "u").1 (Or.inl rfl)
  have h2 := (marketplaceClassificationAmended (some "0x1234") "42" "u").2.1 "0x1234" rfl
    (by decide)
  have h3 := (marketplaceClassificationAmended (some " ") "42" "u").2.2 " " rfl
    (by decide) (by decide)
  exact ⟨h1.1, h1.2, h2.1, h2.2, h3.1, h3.2⟩

/-- C6 counterexample: a first call that successfully fetches and caches
the rate 0 (a falsy JS number) is followed, 59 minutes later, by a call
that performs a fresh upstream fetch instead of returning the cached rate
unchanged, because the cached-value truthiness test fails on 0. -/
theorem conversionRateZeroRefetched :
    (getEthToUsdConversionRate (some 0) 1000 initRateCache).cache =
      { cachedConversionRate := some 0, lastFetchedTime := 1000 } ∧
    (getEthToUsdConversionRate (some 0) 1000 initRateCache).didFetch = true ∧
    (getEthToUsdConversionRate (some 7) (1000 + 3540000)
        { cachedConversionRate := some 0, lastFetchedTime := 1000 }).didFetch = true ∧
    (getEthToUsdConversionRate (some 7) (1000 + 3540000)
        { cachedConversionRate := some 0, lastFetchedTime := 1000 }).value = some 7 := by
  decide

/-- C6 (amended): for a nonzero (truthy) rate fetched and cached at t0, a
call 59 minutes later returns the cached rate unchanged without fetching,
a call 61 minutes later performs a fresh fetch and returns its result
(whatever it is), and in general any call on this cache that does not
fetch is strictly within the one-hour TTL. -/
theorem conversionRateCacheTTL (r : ℚ) (hr : ¬ r = 0) (t0 : ℕ) (f f2 : Option ℚ) :
    (getEthToUsdConversionRate (some r) t0 initRateCache).cache =
      { cachedConversionRate := some r, lastFetchedTime := t0 } ∧
    getEthToUsdConversionRate f (t0 + 3540000)
        { cachedConversionRate := some r, lastFetchedTime := t0 } =
      { value := some r,
        cache := { cachedConversionRate := some r, lastFetchedTime := t0 },
        didFetch := false } ∧
    ((getEthToUsdConversionRate f2 (t0 + 3660000)
        { cachedConversionRate := some r, lastFetchedTime := t0 }).didFetch = true ∧
      (getEthToUsdConversionRate f2 (t0 + 3660000)
        { cachedConversionRate := some r, lastFetchedTime := t0 }).value = f2) ∧
    (∀ q fq, (getEthToUsdConversionRate fq q
        { cachedConversionRate := some r, lastFetchedTime := t0 }).didFetch = false →
      q - t0 < 3600000) := by
  refine ⟨?_, ?_, ⟨?_, ?_⟩, ?_⟩
  · simp [getEthToUsdConversionRate, initRateCache, truthyRate]
  · simp [getEthToUsdConversionRate, truthyRate, hr]
  · have hcond : ¬ (truthyRate (some r) = true ∧ (t0 + 3660000) - t0 < 3600000) := by
      intro hc
      omega
    cases f2 <;> simp [getEthToUsdConversionRate, hcond]
  · have hcond : ¬ (truthyRate (some r) = true ∧ (t0 + 3660000) - t0 < 3600000) := by
      intro hc
      omega
    cases f2 <;> simp [getEthToUsdConversionRate, hcond]
  · intro q fq hq
    by_cases hc : truthyRate (some r) = true ∧ q - t0 < 3600000
    · exact hc.2
    · exfalso
      cases fq <;> simp [getEthToUsdConversionRate, hc] at hq

/-! ## Listing bot: cooldown table, announcer and dedupe set
(src/bottybot.mjs lines 811-831, 833-884, 941-971, 1083-1117;
src/unnamed/part_001 lines 1016-1036, 1146-1188, 1344-1384) -/

/-- The BLACKLIST cooldown table: a map from (sellerAddress, tokenId) to
the timestamp of the last announcement, modelled as a first-match-wins
association list. -/
abbrev Blacklist := List ((String × String) × ℕ)

/-- ONE_DAY_MS constant of the listing bot. -/
def ONE_DAY_MS : ℕ := 86400000

/-- Lookup of BLACKLIST[sellerAddress][tokenId]. -/
def blacklistLookup (bl : Blacklist) (sellerAddress tokenId : String) : Option ℕ :=
  (bl.find? (fun e => decide (e.1 = (sellerAddress, tokenId)))).map (fun e => e.2)

/-- isBlacklisted (src/bottybot.mjs lines 811-822): the entry must exist,
be truthy (a 0 timestamp is falsy in JS), and be less than ONE_DAY_MS old.
Nat subtraction truncates to 0 exactly where the JS difference is
negative, and both then compare below ONE_DAY_MS. -/
def isBlacklisted (bl : Blacklist) (sellerAddress tokenId : String)
    (currentTime : ℕ) : Bool :=
  match blacklistLookup bl sellerAddress tokenId with
  | none => false
  | some ts =>
    (if ts = 0 then false else true) && decide (currentTime - ts < ONE_DAY_MS)

/-- updateBlacklist (src/bottybot.mjs lines 824-831): store the current
time under (sellerAddress, tokenId), replacing any previous entry. -/
def updateBlacklist (bl : Blacklist) (sellerAddress tokenId : String)
    (currentTime : ℕ) : Blacklist :=
  ((sellerAddress, tokenId), currentTime) ::
    bl.filter (fun e => ! decide (e.1 = (sellerAddress, tokenId)))

/-- An OpenSea listing event as consumed by the listing bot, with the
asset sub-object flattened. -/
structure Listing where
  order_hash : String
  contract : String
  event_timestamp : ℕ
  maker : String
  identifier : String
  name : Option String
  opensea_url : String
  paymentQuantity : ℕ
  paymentDecimals : ℕ
  protocol_address : Option String
  deriving DecidableEq, Repr

/-- JS template-literal interpolation of a possibly-undefined value. -/
def jsInterp : Option String → String
  | none => "undefined"
  | some s => s

/-- The listing announcement text (src/bottybot.mjs line 966).  The JS
number formatting is represented by the rationals' canonical string form;
only the (non-)emptiness of the text is ever branched on. -/
def listingMessageText (l : Listing) (ethPriceRaw usdPrice : ℚ) : String :=
  jsInterp l.name ++ " has just been listed for " ++ toString ethPriceRaw ++
    " ETH ($" ++ toString usdPrice ++ " USD)"

/-- Outcome of the listing sendToDiscord (src/bottybot.mjs lines 833-884):
an empty message returns without posting; otherwise the webhook POST
either succeeds, or the error is re-thrown (after a pause) to the
caller. -/
inductive SendOutcome where
  | skippedEmpty
  | sent
  | threwError
  deriving DecidableEq, Repr

/-- Delivery step of the listing announcer; deliveryOk is the webhook
oracle (response.ok and no fetch exception). -/
def sendToDiscordListing (messageText : String) (deliveryOk : Bool) : SendOutcome :=
  if messageText = "" then SendOutcome.skippedEmpty
  else if deliveryOk then SendOutcome.sent
  else SendOutcome.threwError

/-- Result of one announceMoonCatListing call: whether it threw to its
caller, whether the webhook message was delivered, and the cooldown table
afterwards. -/
structure AnnounceListingResult where
  threw : Bool
  delivered : Bool
  blacklist : Blacklist
  deriving DecidableEq, Repr

/-- Embedding of announceMoonCatListing (src/bottybot.mjs lines 941-971):
cooldown check, conversion-rate gate, message assembly, webhook delivery
(whose failure propagates to the caller), and only after a normal return
from sendToDiscord the cooldown-table update.  The image lookup result is
placed in the payload but never gates control flow, so it is omitted. -/
def announceMoonCatListing (bl : Blacklist) (now : ℕ) (rate : Option ℚ)
    (deliveryOk : Bool) (l : Listing) : AnnounceListingResult :=
  if isBlacklisted bl l.maker l.identifier now then
    { threw := false, delivered := false, blacklist := bl }
  else
    match rate with
    | none => { threw := false, delivered := false, blacklist := bl }
    | some ethToUsdRate =>
      if ethToUsdRate = 0 then
        { threw := false, delivered := false, blacklist := bl }
      else
        match sendToDiscordListing
            (listingMessageText l ((l.paymentQuantity : ℚ) / 10 ^ l.paymentDecimals)
              (((l.paymentQuantity : ℚ) / 10 ^ l.paymentDecimals) * ethToUsdRate))
            deliveryOk with
        | SendOutcome.skippedEmpty =>
          { threw := false, delivered := false,
            blacklist := updateBlacklist bl l.maker l.identifier now }
        | SendOutcome.sent =>
          { threw := false, delivered := true,
            blacklist := updateBlacklist bl l.maker l.identifier now }
        | SendOutcome.threwError =>
          { threw := true, delivered := false, blacklist := bl }

/-- The assembled listing message is never the empty string, because the
template contains literal text. -/
theorem listingMessageText_ne_empty (l : Listing) (a b : ℚ) :
    ¬ listingMessageText l a b = "" := by
  intro h
  have hlen : (listingMessageText l a b).length = 0 := by
    rw [h]
    rfl
  have hterm : (" has just been listed for " : String).length = 26 := by decide
  simp only [listingMessageText, String.length_append] at hlen
  omega

/-- Insert into the PROCESSED_LISTINGS JS Set: append in insertion order
unless already present. -/
def addProcessed (processed : List String) (h : String) : List String :=
  if processed.contains h then processed else processed ++ [h]

/-- The dedupe-set eviction: when the size exceeds 40, delete the first
(oldest-inserted) element. -/
def evictIfOver40 (processed : List String) : List String :=
  if processed.length > 40 then processed.drop 1 else processed

/-- Insertion sort of the listings queue by event_timestamp, modelling the
ascending comparator sort at the top of processListingsQueue. -/
def insertByTs (l : Listing) : List Listing → List Listing
  | [] => [l]
  | x :: xs =>
    if l.event_timestamp ≤ x.event_timestamp then l :: x :: xs
    else x :: insertByTs l xs

/-- Sort of the listings queue by ascending event_timestamp. -/
def sortListings : List Listing → List Listing
  | [] => []
  | x :: xs => insertByTs x (sortListings xs)

/-- One iteration of the bottybot.mjs processListingsQueue loop as it acts
on the dedupe set (src/bottybot.mjs lines 1087-1116): skip
already-processed order hashes; a throw from the announce step (modelled
by the throwsOn oracle) reaches the catch before the add, skipping both
the add and the eviction; otherwise add the hash and evict when the set
exceeds 40. -/
def processListingsStep (throwsOn : Listing → Bool) (processed : List String)
    (l : Listing) : List String :=
  if processed.contains l.order_hash then processed
  else if throwsOn l then processed
  else evictIfOver40 (addProcessed processed l.order_hash)

/-- Drain of the sorted queue (bottybot.mjs variant). -/
def processListingsLoop (throwsOn : Listing → Bool) :
    List Listing → List String → List String
  | [], processed => processed
  | l :: rest, processed =>
    processListingsLoop throwsOn rest (processListingsStep throwsOn processed l)

/-- The bottybot.mjs processListingsQueue restricted to its effect on the
PROCESSED_LISTINGS set. -/
def processListingsQueue (throwsOn : Listing → Bool) (queue : List Listing)
    (processed : List String) : List String :=
  processListingsLoop throwsOn (sortListings queue) processed

/-- One iteration of the part_001 variant (src/unnamed/part_001 lines
1348-1383): old-wrapper listings are added to the set and skipped with
continue, bypassing the size check. -/
def processListingsStepP1 (throwsOn : Listing → Bool) (processed : List String)
    (l : Listing) : List String :=
  if processed.contains l.order_hash then processed
  else if jsToLower l.contract = jsToLower OLD_WRAPPER_CONTRACT_ADDRESS then
    addProcessed processed l.order_hash
  else if throwsOn l then processed
  else evictIfOver40 (addProcessed processed l.order_hash)

/-- Drain of the sorted queue (part_001 variant). -/
def processListingsLoopP1 (throwsOn : Listing → Bool) :
    List Listing → List String → List String
  | [], processed => processed
  | l :: rest, processed =>
    processListingsLoopP1 throwsOn rest (processListingsStepP1 throwsOn processed l)

/-- The part_001 processListingsQueue restricted to its effect on the
PROCESSED_LISTINGS set. -/
def processListingsQueueP1 (throwsOn : Listing → Bool) (queue : List Listing)
    (processed : List String) : List String :=
  processListingsLoopP1 throwsOn (sortListings queue) processed

theorem addProcessed_length (processed : List String) (h : String) :
    (addProcessed processed h).length ≤ processed.length + 1 := by
  unfold addProcessed
  split
  · omega
  · simp

theorem evictIfOver40_length (processed : List String) (hp : processed.length ≤ 42) :
    (evictIfOver40 processed).length ≤ 41 := by
  unfold evictIfOver40
  split
  · simp only [List.length_drop]
    omega
  · omega

theorem processListingsStep_length (throwsOn : Listing → Bool) (processed : List String)
    (l : Listing) (hp : processed.length ≤ 41) :
    (processListingsStep throwsOn processed l).length ≤ 41 := by
  unfold processListingsStep
  split
  · exact hp
  · split
    · exact hp
    · refine evictIfOver40_length _ ?_
      have := addProcessed_length processed l.order_hash
      omega

theorem processListingsLoop_length (throwsOn : Listing → Bool) (ls : List Listing)
    (processed : List String) (hp : processed.length ≤ 41) :
    (processListingsLoop throwsOn ls processed).length ≤ 41 := by
  induction ls generalizing processed with
  | nil => exact hp
  | cons l rest ih => exact ih _ (processListingsStep_length throwsOn processed l hp)

theorem processListingsStepP1_length (throwsOn : Listing → Bool) (processed : List String)
    (l : Listing) (hw : ¬ jsToLower l.contract = jsToLower OLD_WRAPPER_CONTRACT_ADDRESS)
    (hp : processed.length ≤ 41) :
    (processListingsStepP1 throwsOn processed l).length ≤ 41 := by
  by_cases h1 : l.order_hash ∈ processed
  · simp [processListingsStepP1, h1, hp]
  · by_cases h3 : throwsOn l = true
    · simp [processListingsStepP1, h1, hw, h3, hp]
    · have hstep : processListingsStepP1 throwsOn processed l =
          evictIfOver40 (addProcessed processed l.order_hash) := by
        simp [processListingsStepP1, h1, hw, h3]
      rw [hstep]
      refine evictIfOver40_length _ ?_
      have := addProcessed_length processed l.order_hash
      omega

theorem processListingsLoopP1_length (throwsOn : Listing → Bool) (ls : List Listing) :
    ∀ processed : List String,
      (∀ l ∈ ls, ¬ jsToLower l.contract = jsToLower OLD_WRAPPER_CONTRACT_ADDRESS) →
      processed.length ≤ 41 →
      (processListingsLoopP1 throwsOn ls processed).length ≤ 41 := by
  induction ls with
  | nil =>
    intro processed hw hp
    exact hp
  | cons l rest ih =>
    intro processed hw hp
    exact ih _ (fun u hu => hw u (List.mem_cons_of_mem _ hu))
      (processListingsStepP1_length throwsOn processed l
        (hw l (List.mem_cons_self _ _)) hp)

theorem mem_insertByTs (x l : Listing) (ls : List Listing) (hx : x ∈ insertByTs l ls) :
    x = l ∨ x ∈ ls := by
  induction ls with
  | nil =>
    simp only [insertByTs, List.mem_singleton] at hx
    exact Or.inl hx
  | cons y ys ih =>
    unfold insertByTs at hx
    split at hx
    · rcases List.mem_cons.mp hx with h | h
      · exact Or.inl h
      · exact Or.inr h
    · rcases List.mem_cons.mp hx with h | h
      · exact Or.inr (h ▸ List.mem_cons_self _ _)
      · rcases ih h with h2 | h2
        · exact Or.inl h2
        · exact Or.inr (List.mem_cons_of_mem _ h2)

theorem mem_sortListings (x : Listing) (ls : List Listing) (hx : x ∈ sortListings ls) :
    x ∈ ls := by
  induction ls with
  | nil =>
    simp [sortListings] at hx
  | cons y ys ih =>
    unfold sortListings at hx
    rcases mem_insertByTs x y (sortListings ys) hx with rfl | hx2
    · exact List.mem_cons_self _ _
    · exact List.mem_cons_of_mem _ (ih hx2)

/-- The freshly updated cooldown entry is found by the lookup. -/
theorem blacklistLookup_update (bl : Blacklist) (sellerAddress tokenId : String) (t : ℕ) :
    blacklistLookup (updateBlacklist bl sellerAddress tokenId t) sellerAddress tokenId =
      some t := by
  simp [blacklistLookup, updateBlacklist, List.find?]

/-- Witness for C6 (amended): applying conversionRateCacheTTL at the
concrete rate 3000 cached at time 1000. -/
theorem conversionRateCacheTTL_witness :
    getEthToUsdConversionRate (some 9) (1000 + 3540000)
        { cachedConversionRate := some 3000, lastFetchedTime := 1000 } =
      { value := some 3000,
        cache := { cachedConversionRate := some 3000, lastFetchedTime := 1000 },
        didFetch := false } ∧
    (getEthToUsdConversionRate (some 9) (1000 + 3660000)
        { cachedConversionRate := some 3000, lastFetchedTime := 1000 }).didFetch = true :=
  ⟨(conversionRateCacheTTL 3000 (by norm_num) 1000 (some 9) (some 9)).2.1,
    (conversionRateCacheTTL 3000 (by norm_num) 1000 (some 9) (some 9)).2.2.1.1⟩

/-- C10: the cooldown table entry for (maker, identifier) is written only
when the webhook POST succeeds; when delivery fails (the error re-raised
by sendToDiscord propagates before updateBlacklist runs) and on every
early return, the cooldown table is left unchanged, so the same listing is
not suppressed from a later announcement attempt. -/
theorem blacklistOnlyOnDeliverySuccess (bl : Blacklist) (now : ℕ) (rate : Option ℚ)
    (l : Listing) :
    ((announceMoonCatListing bl now rate false l).blacklist = bl ∧
      (announceMoonCatListing bl now rate false l).delivered = false) ∧
    (∀ deliveryOk : Bool,
      (announceMoonCatListing bl now rate deliveryOk l).blacklist = bl ∨
        ((announceMoonCatListing bl now rate deliveryOk l).delivered = true ∧
          (announceMoonCatListing bl now rate deliveryOk l).blacklist =
            updateBlacklist bl l.maker l.identifier now)) := by
  by_cases hb : isBlacklisted bl l.maker l.identifier now = true
  · constructor
    · simp [announceMoonCatListing, hb]
    · intro d
      left
      simp [announceMoonCatListing, hb]
  · cases rate with
    | none =>
      constructor
      · simp [announceMoonCatListing, hb]
      · intro d
        left
        simp [announceMoonCatListing, hb]
    | some r =>
      by_cases hr : r = 0
      · constructor
        · simp [announceMoonCatListing, hb, hr]
        · intro d
          left
          simp [announceMoonCatListing, hb, hr]
      · have hmsg := listingMessageText_ne_empty l
          ((l.paymentQuantity : ℚ) / 10 ^ l.paymentDecimals)
          (((l.paymentQuantity : ℚ) / 10 ^ l.paymentDecimals) * r)
        constructor
        · simp [announceMoonCatListing, hb, hr, sendToDiscordListing, hmsg]
        · intro d
          cases d with
          | false =>
            left
            simp [announceMoonCatListing, hb, hr, sendToDiscordListing, hmsg]
          | true =>
            right
            simp [announceMoonCatListing, hb, hr, sendToDiscordListing, hmsg]

/-- C8: listing cooldown suppression.  After a successful (delivered)
listing announcement for (maker, identifier) at a positive wall-clock
time t, the cooldown check answers true for every query strictly within
24 hours of t, so a second announcement attempt one hour later is
suppressed, and answers false at or beyond 24 hours, so an attempt 25
hours later is delivered again. -/
theorem listingCooldownWindow (bl : Blacklist) (t : ℕ) (rate : Option ℚ) (l : Listing)
    (ht : 0 < t)
    (hdel : (announceMoonCatListing bl t rate true l).delivered = true) :
    (∀ q, q - t < ONE_DAY_MS →
      isBlacklisted (announceMoonCatListing bl t rate true l).blacklist
        l.maker l.identifier q = true) ∧
    (∀ q, ONE_DAY_MS ≤ q - t →
      isBlacklisted (announceMoonCatListing bl t rate true l).blacklist
        l.maker l.identifier q = false) ∧
    (announceMoonCatListing (announceMoonCatListing bl t rate true l).blacklist
        (t + 3600000) rate true l).delivered = false ∧
    (announceMoonCatListing (announceMoonCatListing bl t rate true l).blacklist
        (t + 90000000) rate true l).delivered = true := by
  by_cases hb : isBlacklisted bl l.maker l.identifier t = true
  · simp [announceMoonCatListing, hb] at hdel
  · cases rate with
    | none => simp [announceMoonCatListing, hb] at hdel
    | some r =>
      by_cases hr : r = 0
      · simp [announceMoonCatListing, hb, hr] at hdel
      · have hmsg := listingMessageText_ne_empty l
          ((l.paymentQuantity : ℚ) / 10 ^ l.paymentDecimals)
          (((l.paymentQuantity : ℚ) / 10 ^ l.paymentDecimals) * r)
        have hres : announceMoonCatListing bl t (some r) true l =
            { threw := false, delivered := true,
              blacklist := updateBlacklist bl l.maker l.identifier t } := by
          simp [announceMoonCatListing, hb, hr, sendToDiscordListing, hmsg]
        rw [hres]
        have ht0 : ¬ t = 0 := by omega
        have hblack : ∀ q, q - t < ONE_DAY_MS →
            isBlacklisted (updateBlacklist bl l.maker l.identifier t)
              l.maker l.identifier q = true := by
          intro q hq
          simp only [ONE_DAY_MS] at hq
          simp [isBlacklisted, blacklistLookup_update, ht0, ONE_DAY_MS, hq]
        have hwhite : ∀ q, ONE_DAY_MS ≤ q - t →
            isBlacklisted (updateBlacklist bl l.maker l.identifier t)
              l.maker l.identifier q = false := by
          intro q hq
          simp only [ONE_DAY_MS] at hq
          simp [isBlacklisted, blacklistLookup_update, ht0, ONE_DAY_MS]
          omega
        refine ⟨hblack, hwhite, ?_, ?_⟩
        · have hb2 : isBlacklisted (updateBlacklist bl l.maker l.identifier t)
              l.maker l.identifier (t + 3600000) = true := by
            apply hblack
            simp only [ONE_DAY_MS]
            omega
          simp [announceMoonCatListing, hb2]
        · have hb3 : isBlacklisted (updateBlacklist bl l.maker l.identifier t)
              l.maker l.identifier (t + 90000000) = false := by
            apply hwhite
            simp only [ONE_DAY_MS]
            omega
          simp [announceMoonCatListing, hb3, hr, sendToDiscordListing, hmsg]

/-- A concrete MoonCats listing for the C8 witness. -/
def listingC8 : Listing :=
  { order_hash := "0xoh1", contract := MOONCATS_CONTRACT_ADDRESS, event_timestamp := 5,
    maker := "0xmakerc8", identifier := "42", name := some "Buttons",
    opensea_url := "https://opensea.io/item/42", paymentQuantity := 1000000000000000000,
    paymentDecimals := 18, protocol_address := some "0xproto" }

/-- Witness for C8: a listing delivered at time 1000 is suppressed one
hour later and delivered again 25 hours later, by applying
listingCooldownWindow at concrete inputs. -/
theorem listingCooldownWindow_witness :
    isBlacklisted (announceMoonCatListing [] 1000 (some 3000) true listingC8).blacklist
      listingC8.maker listingC8.identifier (1000 + 3600000) = true ∧
    isBlacklisted (announceMoonCatListing [] 1000 (some 3000) true listingC8).blacklist
      listingC8.maker listingC8.identifier (1000 + ONE_DAY_MS) = false ∧
    (announceMoonCatListing
        (announceMoonCatListing [] 1000 (some 3000) true listingC8).blacklist
        (1000 + 3600000) (some 3000) true listingC8).delivered = false ∧
    (announceMoonCatListing
        (announceMoonCatListing [] 1000 (some 3000) true listingC8).blacklist
        (1000 + 90000000) (some 3000) true listingC8).delivered = true := by
  have hdel : (announceMoonCatListing [] 1000 (some 3000) true listingC8).delivered =
      true := by
    norm_num [announceMoonCatListing, isBlacklisted, blacklistLookup,
      sendToDiscordListing, listingMessageText_ne_empty]
  have h := listingCooldownWindow [] 1000 (some 3000) listingC8 (by norm_num) hdel
  refine ⟨h.1 (1000 + 3600000) ?_, h.2.1 (1000 + ONE_DAY_MS) ?_, h.2.2.1, h.2.2.2⟩
  · simp only [ONE_DAY_MS]
    omega
  · simp only [ONE_DAY_MS]
    omega

/-- An old-wrapper-contract listing with the given index as order hash. -/
def wrapperListingW (i : ℕ) : Listing :=
  { order_hash := toString i, contract := OLD_WRAPPER_CONTRACT_ADDRESS,
    event_timestamp := i, maker := "0xm", identifier := "1", name := none,
    opensea_url := "", paymentQuantity := 0, paymentDecimals := 0,
    protocol_address := none }

/-- Forty-two distinct old-wrapper listings. -/
def wrapperQueue42 : List Listing := (List.range 42).map wrapperListingW

set_option maxRecDepth 40000 in
/-- C9 counterexample: in the part_001 processListingsQueue, the
old-wrapper skip branch adds the order hash to PROCESSED_LISTINGS and
continues without the size check, so draining 42 distinct old-wrapper
listings from an empty set leaves 42 entries, exceeding the claimed bound
of 41. -/
theorem processedListingsOverflowP1 :
    (processListingsQueueP1 (fun _ => false) wrapperQueue42 []).length = 42 ∧
    ¬ (processListingsQueueP1 (fun _ => false) wrapperQueue42 []).length ≤ 41 := by
  decide

/-- C9 (amended): in the bottybot.mjs listings loop the dedupe set is
bounded: from any state with at most 41 entries, draining any queue
leaves at most 41 entries (each processed listing adds its order hash and,
when the size then exceeds 40, exactly the oldest entry is evicted).  The
part_001 variant guarantees the same bound only for queues without
old-wrapper-contract listings, because its wrapper-skip branch adds to the
set while bypassing the size check. -/
theorem processedListingsBounded (throwsOn : Listing → Bool) (queue : List Listing)
    (processed : List String) (hp : processed.length ≤ 41) :
    (processListingsQueue throwsOn queue processed).length ≤ 41 ∧
    ((∀ l ∈ queue, ¬ jsToLower l.contract = jsToLower OLD_WRAPPER_CONTRACT_ADDRESS) →
      (processListingsQueueP1 throwsOn queue processed).length ≤ 41) := by
  constructor
  · exact processListingsLoop_length throwsOn (sortListings queue) processed hp
  · intro hw
    exact processListingsLoopP1_length throwsOn (sortListings queue) processed
      (fun u hu => hw u (mem_sortListings u queue hu)) hp

/-- A concrete MoonCats-contract listing for the C9 witness. -/
def mcListingW : Listing :=
  { order_hash := "0xlist1", contract := MOONCATS_CONTRACT_ADDRESS, event_timestamp := 1,
    maker := "0xm", identifier := "7", name := some "Kitty",
    opensea_url := "https://opensea.io/item/7", paymentQuantity := 5,
    paymentDecimals := 1, protocol_address := none }

/-- Witness for C9 (amended): applying processedListingsBounded to a
one-element MoonCats queue over the empty set. -/
theorem processedListingsBounded_witness :
    (processListingsQueue (fun _ => false) [mcListingW] []).length ≤ 41 ∧
    (processListingsQueueP1 (fun _ => false) [mcListingW] []).length ≤ 41 := by
  have h := processedListingsBounded (fun _ => false) [mcListingW] [] (by decide)
  exact ⟨h.1, h.2 (by decide)⟩

end MCBot

